import Mathlib

/-!
Shallow embedding of the task query/update/history subsystem of the
task-management backend (files `app/models.py`, `app/schemas.py`,
`app/routers/tasks.py`).

Conventions of the embedding:
* database rows are Lean structures; the session/database is an explicit
  `DB` value threaded through every operation;
* a raised `HTTPException(status, detail)` is `Except.error ⟨status, detail⟩`;
* Python `datetime`/`date` values are natural numbers (seconds for
  datetimes, days for dates; `datetime.combine(d, min/max time)` becomes
  `dayStart`/`dayEnd`);
* SQL three-valued logic on nullable columns: a comparison against NULL is
  never satisfied, which under the monotone AND/OR folds used here is
  exactly `false`, so NULL columns are `Option` values and comparisons on
  `none` evaluate to `false`;
* `ilike "%s%"` is case-insensitive substring matching (`ciSubstr`),
  with ASCII lowercasing (`lowerStr`) standing in for Python `str.lower`;
* each `db.commit()` is a committed snapshot; operations whose claims
  depend on transaction boundaries return the list of committed states.
-/

namespace TMS

/-- ASCII lowercasing of one character (stand-in for Python `str.lower`). -/
def lowerChar (c : Char) : Char :=
  if 'A' ≤ c ∧ c ≤ 'Z' then Char.ofNat (c.toNat + 32) else c

/-- ASCII lowercasing of a string. -/
def lowerStr (s : String) : String := String.mk (s.data.map lowerChar)

/-- Bool test: the first list is a prefix of the second. -/
def chunkPrefixOf : List Char → List Char → Bool
  | [], _ => true
  | _ :: _, [] => false
  | a :: as, b :: bs => a == b && chunkPrefixOf as bs

/-- Bool test: the first list occurs contiguously inside the second. -/
def chunkInfixOf : List Char → List Char → Bool
  | p, [] => p.isEmpty
  | p, l@(_ :: rest) => chunkPrefixOf p l || chunkInfixOf p rest

/-- Case-insensitive substring test: the SQL `column ILIKE '%needle%'`
of `filter_tasks`' search condition. -/
def ciSubstr (needle hay : String) : Bool :=
  chunkInfixOf (lowerStr needle).data (lowerStr hay).data

/-- `TaskStatus` enum of `app/models.py`. -/
inductive TaskStatus where
  | todo | in_progress | in_review | completed | blocked
  deriving DecidableEq

/-- `TaskPriority` enum of `app/models.py`. -/
inductive TaskPriority where
  | low | medium | high | critical
  deriving DecidableEq

/-- The `.value` string of a `TaskStatus` member. -/
def statusStr : TaskStatus → String
  | .todo => "todo"
  | .in_progress => "in_progress"
  | .in_review => "in_review"
  | .completed => "completed"
  | .blocked => "blocked"

/-- The `.value` string of a `TaskPriority` member. -/
def priorityStr : TaskPriority → String
  | .low => "low"
  | .medium => "medium"
  | .high => "high"
  | .critical => "critical"

/-- Row of the `users` table (the fields this subsystem reads). -/
structure UserR where
  id : Nat
  username : String
  deriving DecidableEq

/-- Row of the `tags` table. -/
structure TagR where
  id : Nat
  name : String
  deriving DecidableEq

/-- Row of the `tasks` table, with its many-to-many association rows
(`task_assignees` as a list of user ids, `task_tags` as the list of the
attached tags' names — tag names are globally unique so the name is a key). -/
structure TaskR where
  id : Nat
  title : String
  descr : Option String
  status : TaskStatus
  priority : TaskPriority
  due_date : Option Nat
  creator_id : Nat
  parent_task_id : Option Nat
  created_at : Nat
  completed_at : Option Nat
  assignees : List Nat
  tags : List String
  deriving DecidableEq

/-- Row of the `task_dependencies` table. -/
structure DepR where
  id : Nat
  blocking_task_id : Nat
  blocked_task_id : Nat
  deriving DecidableEq

/-- Row of the `task_history` table. -/
structure HistR where
  task_id : Nat
  user_id : Nat
  action : String
  field_name : Option String
  old_value : Option String
  new_value : Option String
  deriving DecidableEq

/-- The relational store: one list per table plus autoincrement counters. -/
structure DB where
  tasks : List TaskR
  users : List UserR
  tags : List TagR
  deps : List DepR
  history : List HistR
  nextTaskId : Nat
  nextTagId : Nat
  nextDepId : Nat
  deriving DecidableEq

/-- A raised `HTTPException`. -/
structure HTTPError where
  status : Nat
  detail : String
  deriving DecidableEq

deriving instance DecidableEq for Except

/-- `log_task_history`: append one `TaskHistory` row to the session. -/
def log_task_history (db : DB) (task_id user_id : Nat) (action : String)
    (field_name old_value new_value : Option String) : DB :=
  { db with history := db.history ++
      [⟨task_id, user_id, action, field_name, old_value, new_value⟩] }

/-- `get_or_create_tag`: look the lowercased name up; on a miss create
a new tag (the `db.flush()` makes it visible to later lookups, which the
state threading reproduces). -/
def get_or_create_tag (db : DB) (tag_name : String) : DB × TagR :=
  match db.tags.find? (fun t => t.name == lowerStr tag_name) with
  | some t => (db, t)
  | none =>
      let t : TagR := ⟨db.nextTagId, lowerStr tag_name⟩
      ({ db with tags := db.tags ++ [t], nextTagId := db.nextTagId + 1 }, t)

/-- The tag loops of `create_task`/`update_task`/`bulk_update_tasks`:
resolve each name in order, returning the attached names in order
(duplicate references are appended as the source appends them). -/
def resolveTags : DB → List String → DB × List String
  | db, [] => (db, [])
  | db, n :: rest =>
      let (db1, tg) := get_or_create_tag db n
      let (db2, rest') := resolveTags db1 rest
      (db2, tg.name :: rest')

/-- Python truthiness of a string for `str(v) if v else None`. -/
def truthyStr (s : String) : Option String := if s = "" then none else some s

/-- Python truthiness of an optional string for `str(v) if v else None`. -/
def truthyOptStr (o : Option String) : Option String :=
  o.bind (fun s => if s = "" then none else some s)

/-- `", ".join`-style JSON pieces for the creation snapshot. -/
def jsonQ (s : String) : String := "\"" ++ s ++ "\""

/-- JSON value of an optional date (`str(d)` or `null`). -/
def jsonOptDate : Option Nat → String
  | none => "null"
  | some d => jsonQ (toString d)

/-- JSON array of strings. -/
def jsonArr (xs : List String) : String :=
  "[" ++ String.intercalate ", " (xs.map jsonQ) ++ "]"

/-- `json.dumps(initial_state)` of `create_task`. -/
def initialStateJson (title : String) (st : TaskStatus) (pr : TaskPriority)
    (due : Option Nat) (assignees tags : List String) : String :=
  "\x7b" ++ jsonQ "title" ++ ": " ++ jsonQ title
    ++ ", " ++ jsonQ "status" ++ ": " ++ jsonQ (statusStr st)
    ++ ", " ++ jsonQ "priority" ++ ": " ++ jsonQ (priorityStr pr)
    ++ ", " ++ jsonQ "due_date" ++ ": " ++ jsonOptDate due
    ++ ", " ++ jsonQ "assignees" ++ ": " ++ jsonArr assignees
    ++ ", " ++ jsonQ "tags" ++ ": " ++ jsonArr tags
    ++ "\x7d"

/-- Payload of `POST /tasks/` (`TaskCreate` of `app/schemas.py`), after
pydantic validation: the `parent_task_id` validator has already turned a
literal 0 into `None`. -/
structure TaskCreate where
  title : String
  descr : Option String
  status : TaskStatus
  priority : TaskPriority
  due_date : Option Nat
  assignee_ids : List Nat
  tag_names : List String
  parent_task_id : Option Nat
  deriving DecidableEq

/-- Body of `create_task` after the parent-existence check: assignee
validation, tag resolution, the two commits. An empty `assignee_ids` list
skips the source's assignee block, which is the same as running the lookup
on an empty list, so no branch is needed. -/
def create_task_go (task : TaskCreate) (actor now : Nat) (db : DB) :
    Except HTTPError (List DB × TaskR) :=
  let found := db.users.filter (fun u => task.assignee_ids.contains u.id)
  if found.length ≠ task.assignee_ids.length then
    .error ⟨400, "One or more assignees not found"⟩
  else
    let (db1, tagNames) := resolveTags db task.tag_names
    let newTask : TaskR :=
      ⟨db1.nextTaskId, task.title, task.descr, task.status, task.priority,
       task.due_date, actor, task.parent_task_id, now, none,
       found.map (fun u => u.id), tagNames⟩
    -- db.add(db_task); db.commit()  — first committed state
    let dbC1 : DB := { db1 with tasks := db1.tasks ++ [newTask],
                                nextTaskId := db1.nextTaskId + 1 }
    let snapshot := initialStateJson newTask.title newTask.status
      newTask.priority newTask.due_date
      (found.map (fun u => u.username)) tagNames
    -- log_task_history(...); db.commit()  — second committed state
    let dbC2 := log_task_history dbC1 newTask.id actor "created"
      (some "initial_state") none (some snapshot)
    .ok ([dbC1, dbC2], newTask)

/-- `create_task` of `app/routers/tasks.py`. Returns the committed states
in order (the body runs `db.commit()` twice: once after persisting the
task, once after appending the history row) together with the task. -/
def create_task (task : TaskCreate) (actor now : Nat) (db : DB) :
    Except HTTPError (List DB × TaskR) :=
  -- Validate parent task exists if specified
  match task.parent_task_id with
  | some p =>
      if db.tasks.any (fun t => t.id == p) then
        create_task_go task actor now db
      else
        .error ⟨404, "Parent task not found"⟩
  | none => create_task_go task actor now db

/-- `create_task_dependency` of `app/routers/tasks.py`: `task_id` (URL) is
the blocked task, the body carries `blocking_task_id`. -/
def create_task_dependency (task_id blocking_task_id actor : Nat) (db : DB) :
    Except HTTPError (DB × DepR) :=
  -- Validate tasks exist
  if ¬ (db.tasks.any (fun t => t.id == blocking_task_id)
        ∧ db.tasks.any (fun t => t.id == task_id)) then
    .error ⟨404, "One or both tasks not found"⟩
  -- Prevent self-dependency
  else if blocking_task_id = task_id then
    .error ⟨400, "A task cannot depend on itself"⟩
  -- Check if dependency already exists
  else if db.deps.any (fun d =>
      d.blocking_task_id == blocking_task_id ∧ d.blocked_task_id == task_id) then
    .error ⟨400, "Dependency already exists"⟩
  else
    let dep : DepR := ⟨db.nextDepId, blocking_task_id, task_id⟩
    let db1 : DB := { db with deps := db.deps ++ [dep],
                              nextDepId := db.nextDepId + 1 }
    let db2 := log_task_history db1 task_id actor "dependency_added"
      (some "blocking_task") none (some (toString blocking_task_id))
    .ok (db2, dep)

/-! ### Task Filter Engine (`POST /tasks/filter`) -/

/-- The global combining operator of a filter (`logic_operator`, validated
by the schema to be one of the strings "AND"/"OR"). -/
inductive LogicOp where
  | AND | OR
  deriving DecidableEq

/-- `TaskFilter` of `app/schemas.py`: a fixed set of optional dimensions
plus one global operator. Dates are day numbers, datetimes second counts. -/
structure TaskFilter where
  status : Option (List TaskStatus) := none
  priority : Option (List TaskPriority) := none
  assignee_ids : Option (List Nat) := none
  creator_ids : Option (List Nat) := none
  tag_names : Option (List String) := none
  due_date_from : Option Nat := none
  due_date_to : Option Nat := none
  created_from : Option Nat := none
  created_to : Option Nat := none
  search : Option String := none
  is_overdue : Option Bool := none
  has_subtasks : Option Bool := none
  parent_task_id : Option Nat := none
  logic_operator : LogicOp := LogicOp.AND
  deriving DecidableEq

/-- The schema's default filter: every dimension unset; the declared
default of `logic_operator` is "AND". -/
def emptyTaskFilter : TaskFilter := {}

/-- The `parent_task_id` field validator of `TaskFilter` (and `TaskCreate`):
a literal 0 is converted to `None`. -/
def validate_parent_task_id (v : Option Nat) : Option Nat :=
  if v = some 0 then none else v

/-- Pydantic validation of an inbound `TaskFilter` payload: the only
normalizing validator is the one on `parent_task_id`. -/
def normalizeFilter (f : TaskFilter) : TaskFilter :=
  { f with parent_task_id := validate_parent_task_id f.parent_task_id }

/-- `datetime.combine(d, datetime.min.time())` for a day number. -/
def dayStart (d : Nat) : Nat := 86400 * d

/-- `datetime.combine(d, datetime.max.time())` for a day number
(last second of the day; sub-second precision is immaterial here). -/
def dayEnd (d : Nat) : Nat := 86400 * d + 86399

/-- Status condition: `Task.status.in_(filters.status)`; skipped when the
field is `None` or the empty list (Python truthiness of `if filters.status:`). -/
def cond_status (f : TaskFilter) : List (TaskR → Bool) :=
  match f.status with
  | some (s :: rest) => [fun t => decide (t.status ∈ s :: rest)]
  | _ => []

/-- Priority condition: `Task.priority.in_(filters.priority)`. -/
def cond_priority (f : TaskFilter) : List (TaskR → Bool) :=
  match f.priority with
  | some (p :: rest) => [fun t => decide (t.priority ∈ p :: rest)]
  | _ => []

/-- Creator condition: `Task.creator_id.in_(filters.creator_ids)`. -/
def cond_creator (f : TaskFilter) : List (TaskR → Bool) :=
  match f.creator_ids with
  | some (c :: rest) => [fun t => decide (t.creator_id ∈ c :: rest)]
  | _ => []

/-- Assignee condition: `Task.assignees.any(User.id.in_(ids))`. -/
def cond_assignee (f : TaskFilter) : List (TaskR → Bool) :=
  match f.assignee_ids with
  | some (a :: rest) => [fun t => decide (∃ u ∈ t.assignees, u ∈ a :: rest)]
  | _ => []

/-- Tag condition: names lowercased, `Task.tags.any(Tag.name.in_(lowered))`. -/
def cond_tags (f : TaskFilter) : List (TaskR → Bool) :=
  match f.tag_names with
  | some (n :: rest) =>
      [fun t => decide (∃ g ∈ t.tags, g ∈ (n :: rest).map lowerStr)]
  | _ => []

/-- Due-date lower bound: `Task.due_date >= from` (NULL never matches). -/
def cond_due_from (f : TaskFilter) : List (TaskR → Bool) :=
  match f.due_date_from with
  | some d => [fun t => match t.due_date with
      | some dd => decide (d ≤ dd)
      | none => false]
  | none => []

/-- Due-date upper bound: `Task.due_date <= to`. -/
def cond_due_to (f : TaskFilter) : List (TaskR → Bool) :=
  match f.due_date_to with
  | some d => [fun t => match t.due_date with
      | some dd => decide (dd ≤ d)
      | none => false]
  | none => []

/-- Created-date lower bound, widened to the start of the day. -/
def cond_created_from (f : TaskFilter) : List (TaskR → Bool) :=
  match f.created_from with
  | some d => [fun t => decide (dayStart d ≤ t.created_at)]
  | none => []

/-- Created-date upper bound, widened to the end of the day. -/
def cond_created_to (f : TaskFilter) : List (TaskR → Bool) :=
  match f.created_to with
  | some d => [fun t => decide (t.created_at ≤ dayEnd d)]
  | none => []

/-- Search condition: `or_(title.ilike(pat), description.ilike(pat))`;
an empty search string is falsy and skipped. The inner disjunction is
part of this single condition. -/
def cond_search (f : TaskFilter) : List (TaskR → Bool) :=
  match f.search with
  | some s =>
      if s = "" then []
      else [fun t => ciSubstr s t.title ||
        (match t.descr with
         | some ds => ciSubstr s ds
         | none => false)]
  | none => []

/-- Overdue condition: `and_(due_date < today, status != COMPLETED)`;
`if filters.is_overdue:` skips both `None` and `False`. -/
def cond_overdue (today : Nat) (f : TaskFilter) : List (TaskR → Bool) :=
  match f.is_overdue with
  | some true => [fun t =>
      (match t.due_date with
       | some dd => decide (dd < today)
       | none => false) && decide (t.status ≠ TaskStatus.completed)]
  | _ => []

/-- Has-subtasks condition (`is not None` test): `true` adds
`Task.id.in_(select id where parent_task_id is not NULL)`, `false` adds
`Task.parent_task_id.is_(None)`. -/
def cond_has_subtasks (f : TaskFilter) (db : DB) : List (TaskR → Bool) :=
  match f.has_subtasks with
  | some true => [fun t => decide (t.id ∈
      (db.tasks.filter (fun s => s.parent_task_id.isSome)).map (fun s => s.id))]
  | some false => [fun t => decide (t.parent_task_id = none)]
  | none => []

/-- Parent-task condition: `Task.parent_task_id == value` (`None` skipped;
a NULL parent never equals a present id). -/
def cond_parent (f : TaskFilter) : List (TaskR → Bool) :=
  match f.parent_task_id with
  | some p => [fun t => decide (t.parent_task_id = some p)]
  | none => []

/-- The `conditions` list of `filter_tasks`, in the source's append order. -/
def condList (today : Nat) (f : TaskFilter) (db : DB) : List (TaskR → Bool) :=
  cond_status f ++ cond_priority f ++ cond_creator f ++ cond_assignee f ++
  cond_tags f ++ cond_due_from f ++ cond_due_to f ++ cond_created_from f ++
  cond_created_to f ++ cond_search f ++ cond_overdue today f ++
  cond_has_subtasks f db ++ cond_parent f

/-- `filter_tasks` of `app/routers/tasks.py` (the query itself; `skip`/
`limit` pagination is applied after the predicate and not modelled).
With no conditions the query is left unfiltered; otherwise the list is
folded with `and_` or `or_` according to `logic_operator`. -/
def filter_tasks (today : Nat) (f : TaskFilter) (db : DB) : List TaskR :=
  let conds := condList today f db
  if conds.isEmpty then db.tasks
  else db.tasks.filter (fun t =>
    match f.logic_operator with
    | LogicOp.AND => conds.all (fun c => c t)
    | LogicOp.OR => conds.any (fun c => c t))

/-- The `POST /tasks/filter` route: pydantic validation of the payload
followed by the query. -/
def filter_tasks_api (today : Nat) (f : TaskFilter) (db : DB) : List TaskR :=
  filter_tasks today (normalizeFilter f) db

/-! Spec-side reading of §4.4: each supplied dimension contributes one
condition, stated as a proposition in the spec's words; the global
operator folds them. These definitions follow the specification text and
are compared with the source-derived `condList`/`filter_tasks` above. -/

/-- Spec: "status ∈ set". -/
def spec_status (f : TaskFilter) (t : TaskR) : List Prop :=
  match f.status with
  | some (s :: rest) => [t.status ∈ s :: rest]
  | _ => []

/-- Spec: "priority ∈ set". -/
def spec_priority (f : TaskFilter) (t : TaskR) : List Prop :=
  match f.priority with
  | some (p :: rest) => [t.priority ∈ p :: rest]
  | _ => []

/-- Spec: "creator ∈ set of ids". -/
def spec_creator (f : TaskFilter) (t : TaskR) : List Prop :=
  match f.creator_ids with
  | some (c :: rest) => [t.creator_id ∈ c :: rest]
  | _ => []

/-- Spec: "task has at least one assignee in the set". -/
def spec_assignee (f : TaskFilter) (t : TaskR) : List Prop :=
  match f.assignee_ids with
  | some (a :: rest) => [∃ u ∈ t.assignees, u ∈ a :: rest]
  | _ => []

/-- Spec: "task has at least one tag in the set" (case-insensitive). -/
def spec_tags (f : TaskFilter) (t : TaskR) : List Prop :=
  match f.tag_names with
  | some (n :: rest) => [∃ g ∈ t.tags, g ∈ (n :: rest).map lowerStr]
  | _ => []

/-- Spec: due-date range lower bound, inclusive. -/
def spec_due_from (f : TaskFilter) (t : TaskR) : List Prop :=
  match f.due_date_from with
  | some d => [∃ dd, t.due_date = some dd ∧ d ≤ dd]
  | none => []

/-- Spec: due-date range upper bound, inclusive. -/
def spec_due_to (f : TaskFilter) (t : TaskR) : List Prop :=
  match f.due_date_to with
  | some d => [∃ dd, t.due_date = some dd ∧ dd ≤ d]
  | none => []

/-- Spec: created-date lower bound widened to the start of the day. -/
def spec_created_from (f : TaskFilter) (t : TaskR) : List Prop :=
  match f.created_from with
  | some d => [dayStart d ≤ t.created_at]
  | none => []

/-- Spec: created-date upper bound widened to the end of the day. -/
def spec_created_to (f : TaskFilter) (t : TaskR) : List Prop :=
  match f.created_to with
  | some d => [t.created_at ≤ dayEnd d]
  | none => []

/-- Spec: "case-insensitive substring match against title OR description —
this inner OR is always OR regardless of the global operator". -/
def spec_search (f : TaskFilter) (t : TaskR) : List Prop :=
  match f.search with
  | some s =>
      if s = "" then []
      else [ciSubstr s t.title = true ∨
            ∃ ds, t.descr = some ds ∧ ciSubstr s ds = true]
  | none => []

/-- Spec: "due date strictly before current date AND status != completed". -/
def spec_overdue (today : Nat) (f : TaskFilter) (t : TaskR) : List Prop :=
  match f.is_overdue with
  | some true => [(∃ dd, t.due_date = some dd ∧ dd < today) ∧
                  t.status ≠ TaskStatus.completed]
  | _ => []

/-- Spec-side has-subtasks dimension. For the composition claim the
dimension's own semantics is taken from the source (the spec flags it as
ambiguous; claims C7 settles its meaning separately). -/
def spec_has_subtasks (f : TaskFilter) (db : DB) (t : TaskR) : List Prop :=
  match f.has_subtasks with
  | some true => [t.id ∈
      (db.tasks.filter (fun s => s.parent_task_id.isSome)).map (fun s => s.id)]
  | some false => [t.parent_task_id = none]
  | none => []

/-- Spec: parent-task filter, exact match on the parent reference. -/
def spec_parent (f : TaskFilter) (t : TaskR) : List Prop :=
  match f.parent_task_id with
  | some p => [t.parent_task_id = some p]
  | none => []

/-- All supplied dimension-conditions of a filter, as propositions. -/
def specConds (today : Nat) (f : TaskFilter) (db : DB) (t : TaskR) : List Prop :=
  spec_status f t ++ spec_priority f t ++ spec_creator f t ++
  spec_assignee f t ++ spec_tags f t ++ spec_due_from f t ++
  spec_due_to f t ++ spec_created_from f t ++ spec_created_to f t ++
  spec_search f t ++ spec_overdue today f t ++ spec_has_subtasks f db t ++
  spec_parent f t

/-- Spec-side folded predicate: with no supplied dimension nothing is
filtered; otherwise AND requires every supplied condition, OR at least
one. -/
def matchesFilterSpec (today : Nat) (f : TaskFilter) (db : DB) (t : TaskR) : Prop :=
  if (specConds today f db t).isEmpty then True
  else match f.logic_operator with
    | LogicOp.AND => ∀ p ∈ specConds today f db t, p
    | LogicOp.OR => ∃ p ∈ specConds today f db t, p

/-! ### Task update (`PUT /tasks/{task_id}`) -/

/-- Payload of `PUT /tasks/{task_id}` (`TaskUpdate` of `app/schemas.py`).
The outer `Option` is pydantic's set/unset distinction
(`model_dump(exclude_unset=True)`); for `description` and `due_date` an
explicit JSON `null` is representable, hence the nested `Option`. -/
structure TaskUpdate where
  title : Option String := none
  descr : Option (Option String) := none
  status : Option TaskStatus := none
  priority : Option TaskPriority := none
  due_date : Option (Option Nat) := none
  assignee_ids : Option (List Nat) := none
  tag_names : Option (List String) := none
  deriving DecidableEq

/-- The `title` iteration of `update_task`'s field loop: skip when equal,
else assign and log (`str(v) if v else None` drops empty strings). -/
def upd_title (tid : Nat) (u : TaskUpdate) (actor : Nat) :
    TaskR × DB → TaskR × DB
  | (t, db) =>
    match u.title with
    | some v =>
        if t.title = v then (t, db)
        else ({ t with title := v },
              log_task_history db tid actor "updated" (some "title")
                (truthyStr t.title) (truthyStr v))
    | none => (t, db)

/-- The `description` iteration of the field loop. -/
def upd_descr (tid : Nat) (u : TaskUpdate) (actor : Nat) :
    TaskR × DB → TaskR × DB
  | (t, db) =>
    match u.descr with
    | some v =>
        if t.descr = v then (t, db)
        else ({ t with descr := v },
              log_task_history db tid actor "updated" (some "description")
                (truthyOptStr t.descr) (truthyOptStr v))
    | none => (t, db)

/-- The `status` iteration of the field loop: on an actual change, assign,
log, and if the new value is COMPLETED also stamp `completed_at`; a change
away from COMPLETED does not clear the stamp. -/
def upd_status (tid : Nat) (u : TaskUpdate) (actor now : Nat) :
    TaskR × DB → TaskR × DB
  | (t, db) =>
    match u.status with
    | some v =>
        if t.status = v then (t, db)
        else
          let db' := log_task_history db tid actor "updated" (some "status")
            (some (statusStr t.status)) (some (statusStr v))
          if v = TaskStatus.completed then
            ({ t with status := v, completed_at := some now }, db')
          else
            ({ t with status := v }, db')
    | none => (t, db)

/-- The `priority` iteration of the field loop. -/
def upd_priority (tid : Nat) (u : TaskUpdate) (actor : Nat) :
    TaskR × DB → TaskR × DB
  | (t, db) =>
    match u.priority with
    | some v =>
        if t.priority = v then (t, db)
        else ({ t with priority := v },
              log_task_history db tid actor "updated" (some "priority")
                (some (priorityStr t.priority)) (some (priorityStr v)))
    | none => (t, db)

/-- The `due_date` iteration of the field loop (a date object is always
truthy, so present dates are stringified, `None` stays `None`). -/
def upd_due (tid : Nat) (u : TaskUpdate) (actor : Nat) :
    TaskR × DB → TaskR × DB
  | (t, db) =>
    match u.due_date with
    | some v =>
        if t.due_date = v then (t, db)
        else ({ t with due_date := v },
              log_task_history db tid actor "updated" (some "due_date")
                (t.due_date.map toString) (v.map toString))
    | none => (t, db)

/-- The `assignee_ids` iteration of the field loop: resolve all ids, fail
when any is missing, otherwise replace the set and log the comma-joined
id lists. -/
def upd_assignees (tid : Nat) (u : TaskUpdate) (actor : Nat) :
    TaskR × DB → Except HTTPError (TaskR × DB)
  | (t, db) =>
    match u.assignee_ids with
    | some ids =>
        let old := t.assignees.map toString
        let found := db.users.filter (fun usr => ids.contains usr.id)
        if found.length ≠ ids.length then
          .error ⟨400, "One or more assignees not found"⟩
        else
          .ok ({ t with assignees := found.map (fun usr => usr.id) },
               log_task_history db tid actor "updated" (some "assignees")
                 (some (String.intercalate "," old))
                 (some (String.intercalate ","
                   (found.map (fun usr => toString usr.id)))))
    | none => .ok (t, db)

/-- The `tag_names` iteration of the field loop: clear, re-resolve each
name, log the comma-joined old and new name lists. -/
def upd_tags (tid : Nat) (u : TaskUpdate) (actor : Nat) :
    TaskR × DB → TaskR × DB
  | (t, db) =>
    match u.tag_names with
    | some names =>
        let (db1, newNames) := resolveTags db names
        ({ t with tags := newNames },
         log_task_history db1 tid actor "updated" (some "tags")
           (some (String.intercalate "," t.tags))
           (some (String.intercalate "," newNames)))
    | none => (t, db)

/-- `update_task` of `app/routers/tasks.py`: look the task up, run the
field loop in the schema's field order, commit once. Returns the final
state and the updated task (as the route returns `db_task`). -/
def update_task (tid : Nat) (u : TaskUpdate) (actor now : Nat) (db : DB) :
    Except HTTPError (DB × TaskR) :=
  match db.tasks.find? (fun t => t.id == tid) with
  | none => .error ⟨404, "Task not found"⟩
  | some t0 =>
    let s5 := upd_due tid u actor
      (upd_priority tid u actor
        (upd_status tid u actor now
          (upd_descr tid u actor
            (upd_title tid u actor (t0, db)))))
    match upd_assignees tid u actor s5 with
    | .error e => .error e
    | .ok s6 =>
        let s7 := upd_tags tid u actor s6
        let tF : TaskR := s7.1
        let db7 : DB := s7.2
        let dbF : DB :=
          { db7 with tasks := db7.tasks.map (fun s => if s.id == tid then tF else s) }
        .ok (dbF, tF)

/-! ### Bulk update (`POST /tasks/bulk-update`) -/

/-- Payload of `POST /tasks/bulk-update` (`TaskBulkUpdate` of
`app/schemas.py`). -/
structure TaskBulkUpdate where
  task_ids : List Nat
  status : Option TaskStatus := none
  priority : Option TaskPriority := none
  assignee_ids : Option (List Nat) := none
  tag_names : Option (List String) := none
  deriving DecidableEq

/-- The per-task body of the bulk loop, fields in the schema's order
(status, priority, assignee_ids, tag_names). Scalar fields are applied
only on an actual change (with the COMPLETED stamp as in `update_task`);
`assignee_ids` replaces the set with whatever ids resolved, with no
validation of the missing ones; collection history rows carry no values. -/
def bulk_apply (b : TaskBulkUpdate) (actor now : Nat) (db : DB) (t : TaskR) :
    DB × TaskR :=
  -- status
  let (t1, db1) : TaskR × DB :=
    match b.status with
    | some v =>
        if t.status = v then (t, db)
        else
          let db' := log_task_history db t.id actor "bulk_updated"
            (some "status") (some (statusStr t.status)) (some (statusStr v))
          if v = TaskStatus.completed then
            ({ t with status := v, completed_at := some now }, db')
          else ({ t with status := v }, db')
    | none => (t, db)
  -- priority
  let (t2, db2) : TaskR × DB :=
    match b.priority with
    | some v =>
        if t1.priority = v then (t1, db1)
        else ({ t1 with priority := v },
              log_task_history db1 t.id actor "bulk_updated" (some "priority")
                (some (priorityStr t1.priority)) (some (priorityStr v)))
    | none => (t1, db1)
  -- assignee_ids: no length check, silently keeps only resolved users
  let (t3, db3) : TaskR × DB :=
    match b.assignee_ids with
    | some ids =>
        let found := db2.users.filter (fun usr => ids.contains usr.id)
        ({ t2 with assignees := found.map (fun usr => usr.id) },
         log_task_history db2 t.id actor "bulk_updated" (some "assignees")
           none none)
    | none => (t2, db2)
  -- tag_names
  match b.tag_names with
  | some names =>
      let (db4, newNames) := resolveTags db3 names
      (log_task_history db4 t.id actor "bulk_updated" (some "tags") none none,
       { t3 with tags := newNames })
  | none => (db3, t3)

/-- The `for task in tasks:` loop of `bulk_update_tasks`, walking the
table in storage order and applying the body to the selected rows while
threading the session (tag creations and history rows accumulate). -/
def bulk_loop (b : TaskBulkUpdate) (actor now : Nat) :
    DB → List TaskR → DB × List TaskR
  | db, [] => (db, [])
  | db, t :: rest =>
      if b.task_ids.contains t.id then
        let (db1, t') := bulk_apply b actor now db t
        let (db2, rest') := bulk_loop b actor now db1 rest
        (db2, t' :: rest')
      else
        let (db2, rest') := bulk_loop b actor now db rest
        (db2, t :: rest')

/-- `bulk_update_tasks` of `app/routers/tasks.py`: resolve the whole id
list first and reject the batch before any mutation when the count of
resolved tasks differs from the raw length of `task_ids`; otherwise run
the loop and commit once. Returns the final state and the echoed id
list. -/
def bulk_update_tasks (b : TaskBulkUpdate) (actor now : Nat) (db : DB) :
    Except HTTPError (DB × List Nat) :=
  let sel := db.tasks.filter (fun t => b.task_ids.contains t.id)
  if sel.length ≠ b.task_ids.length then
    .error ⟨400, "One or more tasks not found"⟩
  else
    let (st, tasks') := bulk_loop b actor now db db.tasks
    .ok ({ st with tasks := tasks' }, b.task_ids)

/-! ### Result projections and shared concrete fixtures -/

/-- Commit trace of a `create_task` run (empty on failure). -/
def commitsOf (r : Except HTTPError (List DB × TaskR)) : List DB :=
  match r with
  | .ok (cs, _) => cs
  | .error _ => []

/-- The task a successful `create_task` run returned. -/
def createdTask (r : Except HTTPError (List DB × TaskR)) : Option TaskR :=
  r.toOption.map (fun p => p.2)

/-- The last committed state of a successful `create_task` run. -/
def createFinal (r : Except HTTPError (List DB × TaskR)) : Option DB :=
  r.toOption.bind (fun p => p.1.getLast?)

/-- The assignee list a given task ends up with after a bulk update
(`none` when the batch failed or the task is absent). -/
def bulkTaskAssignees (r : Except HTTPError (DB × List Nat)) (tid : Nat) :
    Option (List Nat) :=
  match r with
  | .ok (db, _) => (db.tasks.find? (fun t => t.id == tid)).map (fun t => t.assignees)
  | .error _ => none

/-- The `completed_at` of the task a successful `update_task` returned. -/
def updatedCompletedAt (r : Except HTTPError (DB × TaskR)) : Option (Option Nat) :=
  r.toOption.map (fun p => p.2.completed_at)

/-- A minimal task row for concrete scenarios. -/
def mkTask (id : Nat) (parent : Option Nat) : TaskR :=
  ⟨id, "t", none, TaskStatus.todo, TaskPriority.medium, none, 1, parent,
   0, none, [], []⟩

/-- A single user for concrete scenarios. -/
def userAlice : UserR := ⟨1, "alice"⟩

/-- Store with no tasks. -/
def dbEmpty : DB := ⟨[], [userAlice], [], [], [], 1, 1, 1⟩

/-- Store with one task (id 1). -/
def dbOne : DB := ⟨[mkTask 1 none], [userAlice], [], [], [], 2, 1, 1⟩

/-- Store with a root task (id 1) and one subtask of it (id 2). -/
def dbPair : DB := ⟨[mkTask 1 none, mkTask 2 (some 1)], [userAlice], [], [], [], 3, 1, 1⟩

/-- Store with five tasks (ids 1–5). -/
def dbFive : DB :=
  ⟨[mkTask 1 none, mkTask 2 none, mkTask 3 none, mkTask 4 none, mkTask 5 none],
   [userAlice], [], [], [], 6, 1, 1⟩

/-! ## Theorems -/

/-- Appending componentwise-related lists keeps them related. -/
theorem forall2_append {α β : Type} {R : α → β → Prop}
    {l₁ l₃ : List α} {l₂ l₄ : List β}
    (h : List.Forall₂ R l₁ l₂) (h' : List.Forall₂ R l₃ l₄) :
    List.Forall₂ R (l₁ ++ l₃) (l₂ ++ l₄) := by
  induction h with
  | nil => exact h'
  | cons hR _ ih => exact List.Forall₂.cons hR ih

/-- A componentwise iff transports a universal over the two lists. -/
theorem forall2_forall_iff {α : Type} {Q : α → Prop} {cs : List α} {ps : List Prop}
    (h : List.Forall₂ (fun c p => Q c ↔ p) cs ps) :
    (∀ c ∈ cs, Q c) ↔ (∀ p ∈ ps, p) := by
  induction h with
  | nil => simp
  | cons hR _ ih =>
      rw [List.forall_mem_cons, List.forall_mem_cons]
      exact and_congr hR ih

/-- A componentwise iff transports an existential over the two lists. -/
theorem forall2_exists_iff {α : Type} {Q : α → Prop} {cs : List α} {ps : List Prop}
    (h : List.Forall₂ (fun c p => Q c ↔ p) cs ps) :
    (∃ c ∈ cs, Q c) ↔ (∃ p ∈ ps, p) := by
  induction h with
  | nil => simp
  | cons hR _ ih =>
      rw [List.exists_mem_cons_iff, List.exists_mem_cons_iff]
      exact or_congr hR ih

/-- A list with a repetition is strictly longer than its deduplication. -/
theorem dedup_length_lt {α : Type} [DecidableEq α] {l : List α}
    (h : ¬ l.Nodup) : l.dedup.length < l.length := by
  rcases (List.dedup_sublist l).length_le.lt_or_eq with h1 | h1
  · exact h1
  · exact absurd (List.dedup_eq_self.mp ((List.dedup_sublist l).eq_of_length h1)) h

/-- The status condition matches its spec reading. -/
theorem chunk_status (f : TaskFilter) (t : TaskR) :
    List.Forall₂ (fun c p => c t = true ↔ p) (cond_status f) (spec_status f t) := by
  unfold cond_status spec_status
  match f.status with
  | none => exact List.Forall₂.nil
  | some [] => exact List.Forall₂.nil
  | some (s :: rest) => exact List.Forall₂.cons (by simp) List.Forall₂.nil

/-- The priority condition matches its spec reading. -/
theorem chunk_priority (f : TaskFilter) (t : TaskR) :
    List.Forall₂ (fun c p => c t = true ↔ p) (cond_priority f) (spec_priority f t) := by
  unfold cond_priority spec_priority
  match f.priority with
  | none => exact List.Forall₂.nil
  | some [] => exact List.Forall₂.nil
  | some (p :: rest) => exact List.Forall₂.cons (by simp) List.Forall₂.nil

/-- The creator condition matches its spec reading. -/
theorem chunk_creator (f : TaskFilter) (t : TaskR) :
    List.Forall₂ (fun c p => c t = true ↔ p) (cond_creator f) (spec_creator f t) := by
  unfold cond_creator spec_creator
  match f.creator_ids with
  | none => exact List.Forall₂.nil
  | some [] => exact List.Forall₂.nil
  | some (c :: rest) => exact List.Forall₂.cons (by simp) List.Forall₂.nil

/-- The assignee condition matches its spec reading. -/
theorem chunk_assignee (f : TaskFilter) (t : TaskR) :
    List.Forall₂ (fun c p => c t = true ↔ p) (cond_assignee f) (spec_assignee f t) := by
  unfold cond_assignee spec_assignee
  match f.assignee_ids with
  | none => exact List.Forall₂.nil
  | some [] => exact List.Forall₂.nil
  | some (a :: rest) => exact List.Forall₂.cons (by simp) List.Forall₂.nil

/-- The tag condition matches its spec reading. -/
theorem chunk_tags (f : TaskFilter) (t : TaskR) :
    List.Forall₂ (fun c p => c t = true ↔ p) (cond_tags f) (spec_tags f t) := by
  unfold cond_tags spec_tags
  match f.tag_names with
  | none => exact List.Forall₂.nil
  | some [] => exact List.Forall₂.nil
  | some (n :: rest) => exact List.Forall₂.cons (by simp) List.Forall₂.nil

/-- The due-date lower bound matches its spec reading. -/
theorem chunk_due_from (f : TaskFilter) (t : TaskR) :
    List.Forall₂ (fun c p => c t = true ↔ p) (cond_due_from f) (spec_due_from f t) := by
  unfold cond_due_from spec_due_from
  match f.due_date_from with
  | none => exact List.Forall₂.nil
  | some d =>
      refine List.Forall₂.cons ?_ List.Forall₂.nil
      rcases hdd : t.due_date with _ | dd <;> simp [hdd]

/-- The due-date upper bound matches its spec reading. -/
theorem chunk_due_to (f : TaskFilter) (t : TaskR) :
    List.Forall₂ (fun c p => c t = true ↔ p) (cond_due_to f) (spec_due_to f t) := by
  unfold cond_due_to spec_due_to
  match f.due_date_to with
  | none => exact List.Forall₂.nil
  | some d =>
      refine List.Forall₂.cons ?_ List.Forall₂.nil
      rcases hdd : t.due_date with _ | dd <;> simp [hdd]

/-- The created-date lower bound matches its spec reading. -/
theorem chunk_created_from (f : TaskFilter) (t : TaskR) :
    List.Forall₂ (fun c p => c t = true ↔ p) (cond_created_from f) (spec_created_from f t) := by
  unfold cond_created_from spec_created_from
  match f.created_from with
  | none => exact List.Forall₂.nil
  | some d => exact List.Forall₂.cons (by simp) List.Forall₂.nil

/-- The created-date upper bound matches its spec reading. -/
theorem chunk_created_to (f : TaskFilter) (t : TaskR) :
    List.Forall₂ (fun c p => c t = true ↔ p) (cond_created_to f) (spec_created_to f t) := by
  unfold cond_created_to spec_created_to
  match f.created_to with
  | none => exact List.Forall₂.nil
  | some d => exact List.Forall₂.cons (by simp) List.Forall₂.nil

/-- The search condition is the inner title-OR-description disjunction. -/
theorem chunk_search (f : TaskFilter) (t : TaskR) :
    List.Forall₂ (fun c p => c t = true ↔ p) (cond_search f) (spec_search f t) := by
  unfold cond_search spec_search
  match f.search with
  | none => exact List.Forall₂.nil
  | some s =>
      by_cases hs : s = ""
      · simp only [if_pos hs]; exact List.Forall₂.nil
      · simp only [if_neg hs]
        refine List.Forall₂.cons ?_ List.Forall₂.nil
        rcases hds : t.descr with _ | ds <;> simp [hds]

/-- The overdue condition matches its spec reading. -/
theorem chunk_overdue (today : Nat) (f : TaskFilter) (t : TaskR) :
    List.Forall₂ (fun c p => c t = true ↔ p) (cond_overdue today f) (spec_overdue today f t) := by
  unfold cond_overdue spec_overdue
  match f.is_overdue with
  | none => exact List.Forall₂.nil
  | some false => exact List.Forall₂.nil
  | some true =>
      refine List.Forall₂.cons ?_ List.Forall₂.nil
      rcases hdd : t.due_date with _ | dd <;> simp [hdd, and_comm]

/-- The has-subtasks condition matches its (source-derived) reading. -/
theorem chunk_has_subtasks (f : TaskFilter) (db : DB) (t : TaskR) :
    List.Forall₂ (fun c p => c t = true ↔ p) (cond_has_subtasks f db) (spec_has_subtasks f db t) := by
  unfold cond_has_subtasks spec_has_subtasks
  match f.has_subtasks with
  | none => exact List.Forall₂.nil
  | some false => exact List.Forall₂.cons (by simp) List.Forall₂.nil
  | some true => exact List.Forall₂.cons (by simp) List.Forall₂.nil

/-- The parent-task condition matches its spec reading. -/
theorem chunk_parent (f : TaskFilter) (t : TaskR) :
    List.Forall₂ (fun c p => c t = true ↔ p) (cond_parent f) (spec_parent f t) := by
  unfold cond_parent spec_parent
  match f.parent_task_id with
  | none => exact List.Forall₂.nil
  | some p => exact List.Forall₂.cons (by simp) List.Forall₂.nil

/-- The source's condition list corresponds pointwise to the spec's list
of supplied dimension-conditions. -/
theorem condList_forall2 (today : Nat) (f : TaskFilter) (db : DB) (t : TaskR) :
    List.Forall₂ (fun c p => c t = true ↔ p)
      (condList today f db) (specConds today f db t) := by
  unfold condList specConds
  exact forall2_append (forall2_append (forall2_append (forall2_append
    (forall2_append (forall2_append (forall2_append (forall2_append
      (forall2_append (forall2_append (forall2_append (forall2_append
        (chunk_status f t) (chunk_priority f t)) (chunk_creator f t))
        (chunk_assignee f t)) (chunk_tags f t)) (chunk_due_from f t))
        (chunk_due_to f t)) (chunk_created_from f t)) (chunk_created_to f t))
        (chunk_search f t)) (chunk_overdue today f t))
        (chunk_has_subtasks f db t)) (chunk_parent f t)

/-- C1: every filter combines all supplied dimension-conditions with the
single global operator (AND or OR, default AND, no per-pair nesting); the
free-text search dimension is itself the disjunction "title matches OR
description matches" whatever the global operator (that disjunction is the
single condition `spec_search` contributes to the fold); a task is
returned iff the folded predicate holds for it. -/
theorem filter_composition_global_operator (today : Nat) (f : TaskFilter)
    (db : DB) (t : TaskR) :
    (t ∈ filter_tasks today f db ↔ t ∈ db.tasks ∧ matchesFilterSpec today f db t) ∧
    emptyTaskFilter.logic_operator = LogicOp.AND := by
  refine ⟨?_, rfl⟩
  have h := condList_forall2 today f db t
  have hlen := h.length_eq
  simp only [filter_tasks, matchesFilterSpec]
  by_cases he : (condList today f db).isEmpty = true
  · have he' : (specConds today f db t).isEmpty = true := by
      rw [List.isEmpty_iff] at he ⊢
      apply List.length_eq_zero.mp
      rw [← hlen, he, List.length_nil]
    rw [if_pos he, if_pos he']
    simp
  · have he' : ¬ (specConds today f db t).isEmpty = true := by
      rw [List.isEmpty_iff] at he ⊢
      intro hnil
      exact he (List.length_eq_zero.mp (by rw [hlen, hnil, List.length_nil]))
    rw [if_neg he, if_neg he']
    rcases hop : f.logic_operator with _ | _
    · simp only [List.mem_filter, hop, List.all_eq_true]
      exact and_congr_right fun _ => forall2_forall_iff h
    · simp only [List.mem_filter, hop, List.any_eq_true]
      exact and_congr_right fun _ => forall2_exists_iff h

/-- A filter supplying only the has-subtasks flag. -/
def hasSubtasksFilter (b : Bool) : TaskFilter := { has_subtasks := some b }

/-- A filter supplying only the parent-task dimension. -/
def parentFilter (p : Nat) : TaskFilter := { parent_task_id := some p }

/-- C7 counterexample: in a store where task 1 is the parent of task 2,
`has_subtasks=true` returns exactly task 2 — a task with no children —
while task 1, whose id does appear as another task's parent reference, is
not returned. -/
theorem filter_has_subtasks_cex :
    (filter_tasks 0 (hasSubtasksFilter true) dbPair).map (fun t => t.id) = [2] ∧
    (dbPair.tasks.filter (fun t => t.parent_task_id == some 2)).length = 0 ∧
    (dbPair.tasks.filter (fun t => t.parent_task_id == some 1)).map (fun t => t.id)
      = [2] := by decide

/-- C7 amended: `has_subtasks=true` returns exactly the tasks whose own
parent reference is set (the tasks that ARE subtasks), not the tasks that
HAVE subtasks; `has_subtasks=false` returns exactly the tasks with no
parent reference. -/
theorem filter_has_subtasks_is_child_filter (today : Nat) (db : DB) (t : TaskR)
    (hnd : (db.tasks.map (fun s => s.id)).Nodup) :
    (t ∈ filter_tasks today (hasSubtasksFilter true) db ↔
       t ∈ db.tasks ∧ t.parent_task_id ≠ none) ∧
    (t ∈ filter_tasks today (hasSubtasksFilter false) db ↔
       t ∈ db.tasks ∧ t.parent_task_id = none) := by
  constructor
  · have hc : condList today (hasSubtasksFilter true) db =
        [fun s => decide (s.id ∈
          (db.tasks.filter (fun r => r.parent_task_id.isSome)).map (fun r => r.id))] := rfl
    simp only [filter_tasks, hc]
    rw [if_neg (by simp)]
    simp only [List.mem_filter,
      show (hasSubtasksFilter true).logic_operator = LogicOp.AND from rfl,
      List.all_cons, List.all_nil, Bool.and_true, decide_eq_true_iff]
    constructor
    · rintro ⟨ht, hmem⟩
      rcases List.mem_map.mp hmem with ⟨s, hs, hid⟩
      rcases List.mem_filter.mp hs with ⟨hsdb, hps⟩
      have hst : s = t := List.inj_on_of_nodup_map hnd hsdb ht hid
      refine ⟨ht, ?_⟩
      rw [← hst]
      exact Option.isSome_iff_ne_none.mp hps
    · rintro ⟨ht, hp⟩
      refine ⟨ht, List.mem_map.mpr ⟨t, List.mem_filter.mpr ⟨ht, ?_⟩, rfl⟩⟩
      exact Option.isSome_iff_ne_none.mpr hp
  · have hc : condList today (hasSubtasksFilter false) db =
        [fun s => decide (s.parent_task_id = none)] := rfl
    simp only [filter_tasks, hc]
    rw [if_neg (by simp)]
    simp [List.mem_filter,
      show (hasSubtasksFilter false).logic_operator = LogicOp.AND from rfl]

/-- C7 amended, at a concrete input: the subtask (id 2) is the one task
the true-flag returns, and the root (id 1) the one the false-flag returns. -/
theorem filter_has_subtasks_is_child_filter_witness :
    ((mkTask 2 (some 1)) ∈ filter_tasks 0 (hasSubtasksFilter true) dbPair ↔
       (mkTask 2 (some 1)) ∈ dbPair.tasks ∧ (mkTask 2 (some 1)).parent_task_id ≠ none) ∧
    ((mkTask 2 (some 1)) ∈ filter_tasks 0 (hasSubtasksFilter false) dbPair ↔
       (mkTask 2 (some 1)) ∈ dbPair.tasks ∧ (mkTask 2 (some 1)).parent_task_id = none) :=
  filter_has_subtasks_is_child_filter 0 dbPair (mkTask 2 (some 1)) (by decide)

/-- C8 counterexample: with `parent_task_id=0` the route returns every
task (both the root task 1 and the subtask 2), not just the tasks whose
parent reference is null (only task 1). -/
theorem filter_parent_zero_cex :
    (filter_tasks_api 0 (parentFilter 0) dbPair).map (fun t => t.id) = [1, 2] ∧
    (dbPair.tasks.filter (fun t => t.parent_task_id == (none : Option Nat))).map
      (fun t => t.id) = [1] := by decide

/-- C8 amended: the schema validator rewrites a literal 0 to `None`, which
removes the parent dimension entirely, so `parent_task_id=0` behaves as if
the dimension were not supplied and returns tasks regardless of parent;
for a nonzero id the dimension is an exact match on the parent reference. -/
theorem filter_parent_zero_unfiltered (today : Nat) (db : DB) (t : TaskR)
    (p : Nat) (hp : p ≠ 0) :
    validate_parent_task_id (some 0) = none ∧
    validate_parent_task_id (some p) = some p ∧
    (t ∈ filter_tasks_api today (parentFilter 0) db ↔ t ∈ db.tasks) ∧
    (t ∈ filter_tasks_api today (parentFilter p) db ↔
       t ∈ db.tasks ∧ t.parent_task_id = some p) := by
  refine ⟨rfl, by simp [validate_parent_task_id, hp], ?_, ?_⟩
  · have : filter_tasks_api today (parentFilter 0) db = db.tasks := rfl
    rw [this]
  · have hn : normalizeFilter (parentFilter p) = parentFilter p := by
      simp [normalizeFilter, validate_parent_task_id, parentFilter, hp]
    have hc : condList today (parentFilter p) db =
        [fun s => decide (s.parent_task_id = some p)] := rfl
    simp only [filter_tasks_api, hn, filter_tasks, hc]
    rw [if_neg (by simp)]
    simp [List.mem_filter,
      show (parentFilter p).logic_operator = LogicOp.AND from rfl]

/-- C8 amended, at a concrete input: a nonzero parent filter is an exact
match, and zero is an all-pass, on the two-task store. -/
theorem filter_parent_zero_unfiltered_witness :
    validate_parent_task_id (some 0) = none ∧
    validate_parent_task_id (some 1) = some 1 ∧
    ((mkTask 2 (some 1)) ∈ filter_tasks_api 0 (parentFilter 0) dbPair ↔
       (mkTask 2 (some 1)) ∈ dbPair.tasks) ∧
    ((mkTask 2 (some 1)) ∈ filter_tasks_api 0 (parentFilter 1) dbPair ↔
       (mkTask 2 (some 1)) ∈ dbPair.tasks ∧
         (mkTask 2 (some 1)).parent_task_id = some 1) :=
  filter_parent_zero_unfiltered 0 dbPair (mkTask 2 (some 1)) 1 (by decide)

/-- C3: the dependency-creation preconditions run in the source's order
with one distinct error each: missing endpoint → 404 "One or both tasks
not found"; equal ids (on an existing task) → 400 "A task cannot depend
on itself"; an existing identical ordered pair → 400 "Dependency already
exists"; and right after a successful creation the same ordered pair is
rejected as a duplicate. -/
theorem dependency_creation_check_order (db : DB) (task_id blocking actor : Nat) :
    (¬ ((∃ t ∈ db.tasks, t.id = blocking) ∧ (∃ t ∈ db.tasks, t.id = task_id)) →
       create_task_dependency task_id blocking actor db =
         .error ⟨404, "One or both tasks not found"⟩) ∧
    ((∃ t ∈ db.tasks, t.id = task_id) → blocking = task_id →
       create_task_dependency task_id blocking actor db =
         .error ⟨400, "A task cannot depend on itself"⟩) ∧
    ((∃ t ∈ db.tasks, t.id = blocking) → (∃ t ∈ db.tasks, t.id = task_id) →
       blocking ≠ task_id →
       (∃ d ∈ db.deps, d.blocking_task_id = blocking ∧ d.blocked_task_id = task_id) →
       create_task_dependency task_id blocking actor db =
         .error ⟨400, "Dependency already exists"⟩) ∧
    (∀ db' dep, create_task_dependency task_id blocking actor db = .ok (db', dep) →
       create_task_dependency task_id blocking actor db' =
         .error ⟨400, "Dependency already exists"⟩) ∧
    ((⟨404, "One or both tasks not found"⟩ : HTTPError) ≠
        ⟨400, "A task cannot depend on itself"⟩ ∧
     (⟨404, "One or both tasks not found"⟩ : HTTPError) ≠
        ⟨400, "Dependency already exists"⟩ ∧
     (⟨400, "A task cannot depend on itself"⟩ : HTTPError) ≠
        ⟨400, "Dependency already exists"⟩) := by
  refine ⟨?_, ?_, ?_, ?_, by decide, by decide, by decide⟩
  · intro h
    rw [create_task_dependency, if_pos]
    simpa using h
  · intro ht heq
    rw [create_task_dependency, if_neg, if_pos heq]
    subst heq
    simp only [not_not]
    constructor <;> simpa using ht
  · intro hb ht hne hdup
    rw [create_task_dependency, if_neg, if_neg hne, if_pos]
    · simpa using hdup
    · simp only [not_not]
      constructor <;> [simpa using hb; simpa using ht]
  · intro db' dep h
    rw [create_task_dependency] at h
    split_ifs at h with h1 h2 h3
    have hpair := Except.ok.inj h
    have hdb : db' = log_task_history
        { db with deps := db.deps ++ [⟨db.nextDepId, blocking, task_id⟩],
                  nextDepId := db.nextDepId + 1 }
        task_id actor "dependency_added" (some "blocking_task") none
        (some (toString blocking)) := (Prod.ext_iff.mp hpair).1.symm
    have htasks : db'.tasks = db.tasks := by rw [hdb]; rfl
    have hdeps : db'.deps = db.deps ++ [⟨db.nextDepId, blocking, task_id⟩] := by
      rw [hdb]; rfl
    rw [create_task_dependency, if_neg, if_neg h2, if_pos]
    · rw [hdeps, List.any_append]
      simp
    · rw [htasks]
      exact not_not_intro h1

/-- A creation payload with no tags or assignees. -/
def simpleCreate : TaskCreate :=
  ⟨"T", none, TaskStatus.todo, TaskPriority.medium, none, [], [], none⟩

/-- A creation payload carrying the tag names ["Urgent", "urgent"]. -/
def urgentCreate : TaskCreate :=
  ⟨"T", none, TaskStatus.todo, TaskPriority.medium, none, [],
   ["Urgent", "urgent"], none⟩

/-- C4: `create_task` runs two commits, not one transaction: the first
committed state already holds the task (id 1) with zero history rows for
it, so a crash between the commits leaves a task with no "created" entry;
only the second committed state holds exactly the one "created" record. -/
theorem create_task_history_split_commits :
    (commitsOf (create_task simpleCreate 1 0 dbEmpty)).length = 2 ∧
    ((commitsOf (create_task simpleCreate 1 0 dbEmpty)).head?.map (fun s =>
        ((s.tasks.map (fun t => t.id)).contains 1,
         (s.history.filter (fun h => h.task_id == 1)).length))) = some (true, 0) ∧
    ((commitsOf (create_task simpleCreate 1 0 dbEmpty)).getLast?.map (fun s =>
        (s.history.filter (fun h => h.task_id == 1)).map (fun h => h.action)))
      = some ["created"] := by decide

/-- C6: tag resolution lowercases before lookup, returns the existing tag
when one with the normalized name exists and creates one only otherwise;
consequently `tag_names=["Urgent","urgent"]` on task creation yields a tag
table holding exactly the one Tag "urgent", and the set of tags attached
to the created task is exactly that one tag. -/
theorem tag_resolution_get_or_create :
    (∀ db name, ((get_or_create_tag db name).2.name = lowerStr name) ∧
       ((∃ tg ∈ db.tags, tg.name = lowerStr name) →
          (get_or_create_tag db name).1 = db ∧
          (get_or_create_tag db name).2 ∈ db.tags) ∧
       ((∀ tg ∈ db.tags, tg.name ≠ lowerStr name) →
          (get_or_create_tag db name).1.tags =
            db.tags ++ [(get_or_create_tag db name).2])) ∧
    (createFinal (create_task urgentCreate 1 0 dbEmpty)).map (fun s => s.tags)
      = some [⟨1, "urgent"⟩] ∧
    (createdTask (create_task urgentCreate 1 0 dbEmpty)).map (fun t => t.tags.dedup)
      = some ["urgent"] := by
  refine ⟨?_, by decide, by decide⟩
  intro db name
  cases hf : db.tags.find? (fun t => t.name == lowerStr name) with
  | some tg =>
      have hname : tg.name = lowerStr name := by
        have := List.find?_some hf
        simpa using this
      have hmem := List.mem_of_find?_eq_some hf
      refine ⟨?_, fun _ => ?_, fun hnone => ?_⟩
      · simp [get_or_create_tag, hf, hname]
      · constructor <;> simp [get_or_create_tag, hf, hmem]
      · exact absurd hname (hnone tg hmem)
  | none =>
      have hnon := List.find?_eq_none.mp hf
      refine ⟨?_, fun hex => ?_, fun _ => ?_⟩
      · simp [get_or_create_tag, hf]
      · rcases hex with ⟨tg, htg, he⟩
        have := hnon tg htg
        simp [he] at this
      · simp [get_or_create_tag, hf]

/-- When some requested id resolves to no task, the resolved-task count
falls strictly short of the raw id-list length. -/
theorem filter_count_lt_of_missing {ids : List Nat} {tasks : List TaskR} {i : Nat}
    (hnd : (tasks.map (fun t => t.id)).Nodup) (hi : i ∈ ids)
    (hmiss : ∀ t ∈ tasks, t.id ≠ i) :
    (tasks.filter (fun t => ids.contains t.id)).length < ids.length := by
  have hf : (tasks.filter (fun t => ids.contains t.id)).Sublist tasks :=
    List.filter_sublist _
  have hnd2 : ((tasks.filter (fun t => ids.contains t.id)).map (fun t => t.id)).Nodup :=
    (hf.map (fun t => t.id)).nodup hnd
  have hss : ((tasks.filter (fun t => ids.contains t.id)).map (fun t => t.id)).toFinset
      ⊆ ids.toFinset.erase i := by
    intro x hx
    rw [List.mem_toFinset] at hx
    rcases List.mem_map.mp hx with ⟨t, ht, rfl⟩
    rcases List.mem_filter.mp ht with ⟨htdb, hcont⟩
    rw [Finset.mem_erase, List.mem_toFinset]
    exact ⟨hmiss t htdb, by simpa using hcont⟩
  calc (tasks.filter (fun t => ids.contains t.id)).length
      = ((tasks.filter (fun t => ids.contains t.id)).map (fun t => t.id)).length :=
        (List.length_map _ _).symm
    _ = ((tasks.filter (fun t => ids.contains t.id)).map (fun t => t.id)).dedup.length := by
        rw [hnd2.dedup]
    _ = ((tasks.filter (fun t => ids.contains t.id)).map (fun t => t.id)).toFinset.card :=
        (List.card_toFinset _).symm
    _ ≤ (ids.toFinset.erase i).card := Finset.card_le_card hss
    _ < ids.toFinset.card := Finset.card_erase_lt_of_mem (List.mem_toFinset.mpr hi)
    _ ≤ ids.length := List.toFinset_card_le _

/-- When every requested id resolves but the id list repeats one, the
resolved-task count still falls strictly short of the raw list length. -/
theorem filter_count_lt_of_dup {ids : List Nat} {tasks : List TaskR}
    (hnd : (tasks.map (fun t => t.id)).Nodup) (hdup : ¬ ids.Nodup)
    (hall : ∀ i ∈ ids, ∃ t ∈ tasks, t.id = i) :
    (tasks.filter (fun t => ids.contains t.id)).length < ids.length := by
  have hf : (tasks.filter (fun t => ids.contains t.id)).Sublist tasks :=
    List.filter_sublist _
  have hnd2 : ((tasks.filter (fun t => ids.contains t.id)).map (fun t => t.id)).Nodup :=
    (hf.map (fun t => t.id)).nodup hnd
  have heq : ((tasks.filter (fun t => ids.contains t.id)).map (fun t => t.id)).toFinset
      = ids.toFinset := by
    ext x
    rw [List.mem_toFinset, List.mem_toFinset]
    constructor
    · intro hx
      rcases List.mem_map.mp hx with ⟨t, ht, rfl⟩
      simpa using (List.mem_filter.mp ht).2
    · intro hx
      rcases hall x hx with ⟨t, htdb, hid⟩
      subst hid
      exact List.mem_map.mpr ⟨t, List.mem_filter.mpr ⟨htdb, by simpa using hx⟩, rfl⟩
  calc (tasks.filter (fun t => ids.contains t.id)).length
      = ((tasks.filter (fun t => ids.contains t.id)).map (fun t => t.id)).length :=
        (List.length_map _ _).symm
    _ = ((tasks.filter (fun t => ids.contains t.id)).map (fun t => t.id)).dedup.length := by
        rw [hnd2.dedup]
    _ = ((tasks.filter (fun t => ids.contains t.id)).map (fun t => t.id)).toFinset.card :=
        (List.card_toFinset _).symm
    _ = ids.toFinset.card := by rw [heq]
    _ = ids.dedup.length := List.card_toFinset _
    _ < ids.length := dedup_length_lt hdup

/-- A bulk payload addressing tasks 1–5 plus the nonexistent id 6. -/
def c2bulk : TaskBulkUpdate :=
  { task_ids := [1, 2, 3, 4, 5, 6], status := some TaskStatus.completed }

/-- A bulk payload repeating the one existing task id. -/
def c10bulk : TaskBulkUpdate :=
  { task_ids := [1, 1], status := some TaskStatus.completed }

/-- C2 counterexample: with one missing id among five valid ones the
batch is rejected, but with HTTP status 400 ("One or more tasks not
found"), not the 404 by which the NotFound error kind is surfaced, so the
failure is not a NotFound as the claim states. -/
theorem bulk_update_missing_id_cex :
    bulk_update_tasks c2bulk 1 0 dbFive =
      .error ⟨400, "One or more tasks not found"⟩ ∧
    (HTTPError.mk 400 "One or more tasks not found").status ≠ 404 := by decide

/-- C2 amended: if any id in `task_ids` resolves to no task, the whole
batch is rejected before any mutation with the 400 error "One or more
tasks not found" (a Bad Request, not the 404 NotFound kind); no state
mutation is produced. -/
theorem bulk_update_missing_id_rejected (b : TaskBulkUpdate) (actor now : Nat)
    (db : DB) (i : Nat) (hnd : (db.tasks.map (fun t => t.id)).Nodup)
    (hi : i ∈ b.task_ids) (hmiss : ∀ t ∈ db.tasks, t.id ≠ i) :
    bulk_update_tasks b actor now db =
      .error ⟨400, "One or more tasks not found"⟩ := by
  simp only [bulk_update_tasks]
  rw [if_pos (Nat.ne_of_lt (filter_count_lt_of_missing hnd hi hmiss))]

/-- C2 amended, at a concrete input: id 6 among 1–5. -/
theorem bulk_update_missing_id_rejected_witness :
    bulk_update_tasks c2bulk 1 0 dbFive =
      .error ⟨400, "One or more tasks not found"⟩ :=
  bulk_update_missing_id_rejected c2bulk 1 0 dbFive 6 (by decide) (by decide)
    (by decide)

/-- C10: a bulk request whose `task_ids` repeats an existing id is
rejected wholesale even though every referenced task exists, because the
count of resolved (distinct) tasks is compared to the raw length of the
id list. -/
theorem bulk_update_duplicate_ids_rejected (b : TaskBulkUpdate)
    (actor now : Nat) (db : DB)
    (hnd : (db.tasks.map (fun t => t.id)).Nodup) (hdup : ¬ b.task_ids.Nodup)
    (hall : ∀ i ∈ b.task_ids, ∃ t ∈ db.tasks, t.id = i) :
    bulk_update_tasks b actor now db =
      .error ⟨400, "One or more tasks not found"⟩ := by
  simp only [bulk_update_tasks]
  rw [if_pos (Nat.ne_of_lt (filter_count_lt_of_dup hnd hdup hall))]

/-- C10, at a concrete input: `task_ids=[1,1]` over the one-task store. -/
theorem bulk_update_duplicate_ids_rejected_witness :
    bulk_update_tasks c10bulk 1 0 dbOne =
      .error ⟨400, "One or more tasks not found"⟩ :=
  bulk_update_duplicate_ids_rejected c10bulk 1 0 dbOne (by decide) (by decide)
    (by decide)

/-- The title step never touches `completed_at` or `status`. -/
theorem upd_title_frame (tid : Nat) (u : TaskUpdate) (actor : Nat)
    (s : TaskR × DB) :
    (upd_title tid u actor s).1.completed_at = s.1.completed_at ∧
    (upd_title tid u actor s).1.status = s.1.status := by
  obtain ⟨t, db⟩ := s
  rcases hv : u.title with _ | v
  · simp [upd_title, hv]
  · by_cases h : t.title = v <;> simp [upd_title, hv, h]

/-- The description step never touches `completed_at` or `status`. -/
theorem upd_descr_frame (tid : Nat) (u : TaskUpdate) (actor : Nat)
    (s : TaskR × DB) :
    (upd_descr tid u actor s).1.completed_at = s.1.completed_at ∧
    (upd_descr tid u actor s).1.status = s.1.status := by
  obtain ⟨t, db⟩ := s
  rcases hv : u.descr with _ | v
  · simp [upd_descr, hv]
  · by_cases h : t.descr = v <;> simp [upd_descr, hv, h]

/-- The priority step never touches `completed_at`. -/
theorem upd_priority_frame (tid : Nat) (u : TaskUpdate) (actor : Nat)
    (s : TaskR × DB) :
    (upd_priority tid u actor s).1.completed_at = s.1.completed_at := by
  obtain ⟨t, db⟩ := s
  rcases hv : u.priority with _ | v
  · simp [upd_priority, hv]
  · by_cases h : t.priority = v <;> simp [upd_priority, hv, h]

/-- The due-date step never touches `completed_at`. -/
theorem upd_due_frame (tid : Nat) (u : TaskUpdate) (actor : Nat)
    (s : TaskR × DB) :
    (upd_due tid u actor s).1.completed_at = s.1.completed_at := by
  obtain ⟨t, db⟩ := s
  rcases hv : u.due_date with _ | v
  · simp [upd_due, hv]
  · by_cases h : t.due_date = v <;> simp [upd_due, hv, h]

/-- The assignee step never touches `completed_at`. -/
theorem upd_assignees_frame (tid : Nat) (u : TaskUpdate) (actor : Nat)
    (s s' : TaskR × DB) (h : upd_assignees tid u actor s = .ok s') :
    s'.1.completed_at = s.1.completed_at := by
  obtain ⟨t, db⟩ := s
  rcases hv : u.assignee_ids with _ | ids
  · simp only [upd_assignees, hv] at h
    rw [← Except.ok.inj h]
  · simp only [upd_assignees, hv] at h
    split_ifs at h
    rw [← Except.ok.inj h]

/-- The tag step never touches `completed_at`. -/
theorem upd_tags_frame (tid : Nat) (u : TaskUpdate) (actor : Nat)
    (s : TaskR × DB) :
    (upd_tags tid u actor s).1.completed_at = s.1.completed_at := by
  obtain ⟨t, db⟩ := s
  rcases hv : u.tag_names with _ | ns
  · simp [upd_tags, hv]
  · simp [upd_tags, hv]

/-- A status change into COMPLETED stamps `completed_at` with the clock. -/
theorem upd_status_stamp (tid : Nat) (u : TaskUpdate) (actor now : Nat)
    (s : TaskR × DB) (h1 : u.status = some TaskStatus.completed)
    (h2 : s.1.status ≠ TaskStatus.completed) :
    (upd_status tid u actor now s).1.completed_at = some now := by
  obtain ⟨t, db⟩ := s
  simp only at h2
  simp [upd_status, h1, h2]

/-- A status update whose target is not COMPLETED (including a transition
away from COMPLETED) leaves `completed_at` untouched. -/
theorem upd_status_keep (tid : Nat) (u : TaskUpdate) (actor now : Nat)
    (s : TaskR × DB) (v : TaskStatus) (h1 : u.status = some v)
    (h2 : v ≠ TaskStatus.completed) :
    (upd_status tid u actor now s).1.completed_at = s.1.completed_at := by
  obtain ⟨t, db⟩ := s
  by_cases he : t.status = v <;> simp [upd_status, h1, he, h2]

/-- An update not supplying status leaves `completed_at` untouched. -/
theorem upd_status_unset (tid : Nat) (u : TaskUpdate) (actor now : Nat)
    (s : TaskR × DB) (h : u.status = none) :
    (upd_status tid u actor now s).1.completed_at = s.1.completed_at := by
  obtain ⟨t, db⟩ := s
  simp [upd_status, h]

/-- On success, the returned task's `completed_at` is whatever the status
step produced: the steps after it preserve the field. -/
theorem update_task_ca_from_status (db : DB) (tid actor now : Nat)
    (u : TaskUpdate) (t0 : TaskR)
    (h0 : db.tasks.find? (fun t => t.id == tid) = some t0)
    (db' : DB) (tr : TaskR)
    (h : update_task tid u actor now db = .ok (db', tr)) :
    tr.completed_at =
      (upd_status tid u actor now
        (upd_descr tid u actor (upd_title tid u actor (t0, db)))).1.completed_at := by
  simp only [update_task, h0] at h
  rcases hass : upd_assignees tid u actor
      (upd_due tid u actor (upd_priority tid u actor
        (upd_status tid u actor now
          (upd_descr tid u actor (upd_title tid u actor (t0, db)))))) with e | s6
  · rw [hass] at h
    simp at h
  · rw [hass] at h
    simp only at h
    have htr : tr = (upd_tags tid u actor s6).1 :=
      ((Prod.ext_iff.mp (Except.ok.inj h)).2).symm
    rw [htr, upd_tags_frame, upd_assignees_frame tid u actor _ _ hass,
        upd_due_frame, upd_priority_frame]

/-- C5: an update that changes status to "completed" stamps
`completed_at` with the current time (non-null); an update whose status
target is any other value — in particular a transition away from
"completed" — leaves `completed_at` exactly as it was (never cleared);
and an update that does not supply the status field leaves
`completed_at` unchanged (in particular still null if it was null). -/
theorem update_completed_at_stamping (db : DB) (tid actor now : Nat)
    (u : TaskUpdate) (t0 : TaskR)
    (h0 : db.tasks.find? (fun t => t.id == tid) = some t0) :
    (u.status = some TaskStatus.completed → t0.status ≠ TaskStatus.completed →
       ∀ db' tr, update_task tid u actor now db = .ok (db', tr) →
         tr.completed_at = some now) ∧
    (∀ v, u.status = some v → v ≠ TaskStatus.completed →
       ∀ db' tr, update_task tid u actor now db = .ok (db', tr) →
         tr.completed_at = t0.completed_at) ∧
    (u.status = none →
       ∀ db' tr, update_task tid u actor now db = .ok (db', tr) →
         tr.completed_at = t0.completed_at) := by
  refine ⟨?_, ?_, ?_⟩
  · intro h1 h2 db' tr h
    rw [update_task_ca_from_status db tid actor now u t0 h0 db' tr h]
    apply upd_status_stamp _ _ _ _ _ h1
    rw [(upd_descr_frame tid u actor _).2, (upd_title_frame tid u actor _).2]
    exact h2
  · intro v h1 h2 db' tr h
    rw [update_task_ca_from_status db tid actor now u t0 h0 db' tr h,
        upd_status_keep tid u actor now _ v h1 h2,
        (upd_descr_frame tid u actor _).1, (upd_title_frame tid u actor _).1]
  · intro h1 db' tr h
    rw [update_task_ca_from_status db tid actor now u t0 h0 db' tr h,
        upd_status_unset tid u actor now _ h1,
        (upd_descr_frame tid u actor _).1, (upd_title_frame tid u actor _).1]

/-- A one-task store whose task is completed with `completed_at = 5`. -/
def doneTask : TaskR :=
  ⟨1, "t", none, TaskStatus.completed, TaskPriority.medium, none, 1, none,
   0, some 5, [], []⟩

/-- Store holding only `doneTask`. -/
def dbDone : DB := ⟨[doneTask], [userAlice], [], [], [], 2, 1, 1⟩

/-- Update payload setting status to completed. -/
def updToCompleted : TaskUpdate := { status := some TaskStatus.completed }

/-- Update payload setting status back to todo. -/
def updToTodo : TaskUpdate := { status := some TaskStatus.todo }

/-- Update payload touching only the title. -/
def updTitleOnly : TaskUpdate := { title := some "x" }

/-- C5, at concrete inputs: completing stamps the clock (99); regressing a
completed task keeps the old stamp (5); a title-only update keeps it too. -/
theorem update_completed_at_stamping_witness :
    updatedCompletedAt (update_task 1 updToCompleted 1 99 dbOne) = some (some 99) ∧
    updatedCompletedAt (update_task 1 updToTodo 1 99 dbDone) = some (some 5) ∧
    updatedCompletedAt (update_task 1 updTitleOnly 1 99 dbDone) = some (some 5) := by
  refine ⟨?_, ?_, ?_⟩
  · have h := (update_completed_at_stamping dbOne 1 1 99 updToCompleted
      (mkTask 1 none) (by decide)).1 rfl (by decide)
    rcases hres : update_task 1 updToCompleted 1 99 dbOne with e | p
    · have hOk : (update_task 1 updToCompleted 1 99 dbOne).isOk = true := by decide
      rw [hres] at hOk
      simp [Except.isOk, Except.toBool] at hOk
    · have h2 := h p.1 p.2 (by rw [hres])
      simp [updatedCompletedAt, Except.toOption, h2]
  · have h := (update_completed_at_stamping dbDone 1 1 99 updToTodo
      doneTask (by decide)).2.1 TaskStatus.todo rfl (by decide)
    rcases hres : update_task 1 updToTodo 1 99 dbDone with e | p
    · have hOk : (update_task 1 updToTodo 1 99 dbDone).isOk = true := by decide
      rw [hres] at hOk
      simp [Except.isOk, Except.toBool] at hOk
    · have h2 := h p.1 p.2 (by rw [hres])
      simp [updatedCompletedAt, Except.toOption, h2]
      decide
  · have h := (update_completed_at_stamping dbDone 1 1 99 updTitleOnly
      doneTask (by decide)).2.2 rfl
    rcases hres : update_task 1 updTitleOnly 1 99 dbDone with e | p
    · have hOk : (update_task 1 updTitleOnly 1 99 dbDone).isOk = true := by decide
      rw [hres] at hOk
      simp [Except.isOk, Except.toBool] at hOk
    · have h2 := h p.1 p.2 (by rw [hres])
      simp [updatedCompletedAt, Except.toOption, h2]
      decide

/-- Tag creation never touches the user table. -/
theorem get_or_create_tag_users (db : DB) (n : String) :
    (get_or_create_tag db n).1.users = db.users := by
  rcases hf : db.tags.find? (fun t => t.name == lowerStr n) with _ | tg <;>
    simp [get_or_create_tag, hf]

/-- Tag resolution never touches the user table. -/
theorem resolveTags_users (ns : List String) :
    ∀ db : DB, (resolveTags db ns).1.users = db.users := by
  induction ns with
  | nil => intro db; rfl
  | cons n rest ih =>
      intro db
      rcases hg : get_or_create_tag db n with ⟨db1, tg⟩
      rcases hr : resolveTags db1 rest with ⟨db2, rest'⟩
      have h1 : db1.users = db.users := by
        have := get_or_create_tag_users db n
        rw [hg] at this
        exact this
      have h2 : db2.users = db1.users := by
        have := ih db1
        rw [hr] at this
        exact this
      simp only [resolveTags, hg, hr]
      rw [h2, h1]

/-- The bulk per-task body never touches the user table. -/
theorem bulk_apply_users (b : TaskBulkUpdate) (actor now : Nat) (db : DB)
    (t : TaskR) : (bulk_apply b actor now db t).1.users = db.users := by
  rcases hs : b.status with _ | sv <;> rcases hp : b.priority with _ | pv <;>
    rcases ha : b.assignee_ids with _ | ids <;>
    rcases ht : b.tag_names with _ | ns <;>
    simp [bulk_apply, hs, hp, ha, ht, log_task_history, resolveTags_users] <;>
    split_ifs <;>
    simp [log_task_history, resolveTags_users]

/-- With `assignee_ids` supplied, the bulk body replaces the task's
assignee set by exactly the listed ids that resolve to users. -/
theorem bulk_apply_assignees (b : TaskBulkUpdate) (actor now : Nat) (db : DB)
    (t : TaskR) (ids : List Nat) (hids : b.assignee_ids = some ids) :
    (bulk_apply b actor now db t).2.assignees =
      (db.users.filter (fun u => ids.contains u.id)).map (fun u => u.id) := by
  rcases hs : b.status with _ | sv <;> rcases hp : b.priority with _ | pv <;>
    rcases ht : b.tag_names with _ | ns <;>
    simp [bulk_apply, hs, hp, ht, hids, log_task_history] <;>
    split_ifs <;>
    simp [log_task_history]

/-- The bulk loop never touches the user table. -/
theorem bulk_loop_users (b : TaskBulkUpdate) (actor now : Nat) :
    ∀ (l : List TaskR) (db : DB), (bulk_loop b actor now db l).1.users = db.users := by
  intro l
  induction l with
  | nil => intro db; rfl
  | cons t rest ih =>
      intro db
      by_cases hc : (b.task_ids.contains t.id) = true
      · rcases hba : bulk_apply b actor now db t with ⟨db1, tapp⟩
        rcases hbl : bulk_loop b actor now db1 rest with ⟨db2, rest'⟩
        have h1 : db1.users = db.users := by
          have := bulk_apply_users b actor now db t
          rw [hba] at this
          exact this
        have h2 : db2.users = db1.users := by
          have := ih db1
          rw [hbl] at this
          exact this
        simp only [bulk_loop, hc, if_true, hba, hbl]
        rw [h2, h1]
      · rcases hbl : bulk_loop b actor now db rest with ⟨db2, rest'⟩
        have h2 : db2.users = db.users := by
          have := ih db
          rw [hbl] at this
          exact this
        simp only [bulk_loop, hc, if_false, hbl]
        exact h2

/-- Every selected task coming out of the bulk loop carries the replaced
assignee set computed from the (unchanging) user table. -/
theorem bulk_loop_assignees (b : TaskBulkUpdate) (actor now : Nat)
    (ids : List Nat) (hids : b.assignee_ids = some ids) (U : List UserR) :
    ∀ (l : List TaskR) (db : DB), db.users = U →
      ∀ t' ∈ (bulk_loop b actor now db l).2, t'.id ∈ b.task_ids →
        t'.assignees = (U.filter (fun u => ids.contains u.id)).map (fun u => u.id) := by
  intro l
  induction l with
  | nil =>
      intro db hU t' ht'
      simp [bulk_loop] at ht'
  | cons t rest ih =>
      intro db hU t' ht' htid
      by_cases hc : (b.task_ids.contains t.id) = true
      · rcases hba : bulk_apply b actor now db t with ⟨db1, tapp⟩
        rcases hbl : bulk_loop b actor now db1 rest with ⟨db2, rest'⟩
        simp only [bulk_loop, hc, if_true, hba, hbl] at ht'
        rcases List.mem_cons.mp ht' with he | hrest
        · subst he
          have := bulk_apply_assignees b actor now db t ids hids
          rw [hba] at this
          simpa [hU] using this
        · have h1 : db1.users = U := by
            have := bulk_apply_users b actor now db t
            rw [hba] at this
            rw [this, hU]
          have := ih db1 h1 t'
          rw [hbl] at this
          exact this hrest htid
      · rcases hbl : bulk_loop b actor now db rest with ⟨db2, rest'⟩
        simp only [bulk_loop, hc, if_false, hbl] at ht'
        rcases List.mem_cons.mp ht' with he | hrest
        · subst he
          exact absurd (by simpa using htid) (by simpa using hc)
        · have := ih db hU t'
          rw [hbl] at this
          exact this hrest htid

/-- A bulk payload addressing the one existing task with one valid
assignee id (1) and one id resolving to no user (99). -/
def c9bulk : TaskBulkUpdate := { task_ids := [1], assignee_ids := some [1, 99] }

/-- C9 counterexample: the bulk update with an unresolvable assignee id
succeeds instead of failing with InvalidAssignee, and the task's assignee
set IS replaced — by the surviving valid id only. -/
theorem bulk_update_invalid_assignee_cex :
    (bulk_update_tasks c9bulk 1 0 dbOne).isOk = true ∧
    bulkTaskAssignees (bulk_update_tasks c9bulk 1 0 dbOne) 1 = some [1] := by decide

/-- C9 amended: bulk update performs no assignee validation. When
`assignee_ids` is present and every task id resolves, the batch succeeds
and every selected task's assignee set is replaced by just the listed ids
that resolve to existing users; unresolvable ids are silently dropped. -/
theorem bulk_update_assignees_unvalidated (b : TaskBulkUpdate)
    (actor now : Nat) (db : DB) (ids : List Nat)
    (hids : b.assignee_ids = some ids)
    (hsel : (db.tasks.filter (fun t => b.task_ids.contains t.id)).length
      = b.task_ids.length) :
    ∃ db', bulk_update_tasks b actor now db = .ok (db', b.task_ids) ∧
      ∀ t' ∈ db'.tasks, t'.id ∈ b.task_ids →
        t'.assignees = (db.users.filter (fun u => ids.contains u.id)).map
          (fun u => u.id) := by
  simp only [bulk_update_tasks]
  rw [if_neg (not_not_intro hsel)]
  rcases hbl : bulk_loop b actor now db db.tasks with ⟨st, tasks'⟩
  refine ⟨{ st with tasks := tasks' }, rfl, ?_⟩
  intro t' ht' htid
  have hmem : t' ∈ (bulk_loop b actor now db db.tasks).2 := by
    rw [hbl]
    exact ht'
  exact bulk_loop_assignees b actor now ids hids db.users db.tasks db rfl
    t' hmem htid

/-- C9 amended, at a concrete input: ids [1,99] with only user 1 existing. -/
theorem bulk_update_assignees_unvalidated_witness :
    ∃ db', bulk_update_tasks c9bulk 1 0 dbOne = .ok (db', c9bulk.task_ids) ∧
      ∀ t' ∈ db'.tasks, t'.id ∈ c9bulk.task_ids →
        t'.assignees = (dbOne.users.filter
          (fun u => (([1, 99] : List Nat)).contains u.id)).map (fun u => u.id) :=
  bulk_update_assignees_unvalidated c9bulk 1 0 dbOne [1, 99] rfl (by decide)

end TMS
